import Mathlib

/-!
Verification development for `create_bot_dir.py`: a Matrix bot-directory
provisioning script built on matrix-nio.  The per-event to-device handler
`Callbacks.to_device_callback` is embedded as a pure function from an
environment (the external client/crypto state and the human answer) and an
incoming event to a trace of outbound actions together with an optional
raised exception; the credential-file login flow (`write_details_to_disk`,
`login`) is embedded as pure functions over a small filesystem model.
-/

namespace CreateBotDir

/-- A to-device message as constructed by the script (type, recipient account
and device, and the content fields the script uses: transaction id, and the
optional from_device and methods entries of the ready message). -/
structure ToDeviceMessage where
  type : String
  recipient : String
  recipient_device : String
  tx_id : String
  from_device : Option String
  methods : Option (List String)
  deriving DecidableEq

/-- An observable action performed by the handler: an outbound to-device send,
one of the three verification API calls on the client, or a line printed to
standard output. -/
inductive Action where
  | sendToDevice (msg : ToDeviceMessage)
  | acceptKeyVerification (txid : String)
  | confirmShortAuthString (txid : String)
  | cancelKeyVerification (txid : String) (reject : Bool)
  | logLine (s : String)
  deriving DecidableEq

/-- A Python exception that can be raised inside the handler body: a KeyError
from the `client.key_verifications[...]` dictionary lookup, an AssertionError
from the device-id/user-id asserts, a KeyboardInterrupt (for example raised
while blocked at the `input()` prompt), or a SystemExit. -/
inductive Exc where
  | keyError (key : String)
  | assertionError
  | keyboardInterrupt
  | systemExit
  deriving DecidableEq

/-- The slice of a matrix-nio Sas object that the script reads: its
transaction id, the counterparty device id (`sas.other_olm_device.device_id`),
the message returned by `sas.share_key()`, the result of `sas.get_mac()` (an
error models a raised LocalProtocolError), and the emoji text it prints. -/
structure Sas where
  transaction_id : String
  other_device_id : String
  share_key_msg : ToDeviceMessage
  mac_result : Except String ToDeviceMessage
  emoji_text : String

/-- The external environment of one handler invocation: the client fields the
handler reads, the `key_verifications` transaction table owned by the
cryptographic layer, the result of the blocking `input()` call at the key
step (an `Except` error models an exception raised while blocked there), and
the responses of the transport calls (`some e` models a ToDeviceError). -/
structure Env where
  device_id : Option String
  user_id : Option String
  key_verifications : String → Option Sas
  human_input : Except Exc String
  to_device_resp : ToDeviceMessage → Option String
  accept_resp : Option String
  confirm_resp : Option String
  cancel_resp : Option String

/-- An incoming to-device event, mirroring the dispatch of the handler: the
typed matrix-nio event classes KeyVerificationStart, KeyVerificationCancel,
KeyVerificationKey and KeyVerificationMac (whose source type string is fixed
by the class and is never "m.key.verification.request"), and the
UnknownToDeviceEvent case carrying its raw source type and content fields
(verification request and done events arrive this way). -/
inductive Event where
  | start (sender transaction_id : String) (short_authentication_string : List String)
  | cancel (sender transaction_id reason : String)
  | key (sender transaction_id : String)
  | mac (sender transaction_id : String)
  | unknown (src_type sender from_device transaction_id : String) (methods : List String)

/-- The Python `str.lower()` call applied to the human answer, embedded as a
character-wise lowercase map. -/
def pyLower (s : String) : String := ⟨s.data.map Char.toLower⟩

/-- Log produced when a transport call returns a ToDeviceError: the script
prints the failure and continues. -/
def errLog (tag : String) : Option String → List Action
  | none => []
  | some e => [Action.logLine (tag ++ " failed with " ++ e)]

/-- The body of `Callbacks.to_device_callback` (the code inside its try
block): returns the trace of actions performed and, when a statement raised,
the exception together with the actions already performed before it. -/
def callbackBody (env : Env) (ev : Event) : List Action × Option Exc :=
  match ev with
  | .unknown srcType sender fromDevice txid methods =>
    if srcType = "m.key.verification.request" then
      let acts := [Action.logLine "Got verification request. Waiting for other device to accept SAS method..."]
      if !(methods.contains "m.sas.v1") then
        (acts ++ [Action.logLine "Other device does not support SAS authentication."], none)
      else
        match env.device_id with
        | none => (acts, some Exc.assertionError)
        | some d =>
          match env.user_id with
          | none => (acts, some Exc.assertionError)
          | some _ =>
            let msg : ToDeviceMessage :=
              { type := "m.key.verification.ready"
                recipient := sender
                recipient_device := fromDevice
                tx_id := txid
                from_device := some d
                methods := some ["m.sas.v1"] }
            (acts ++ [Action.sendToDevice msg] ++ errLog "to_device" (env.to_device_resp msg), none)
    else if srcType = "m.key.verification.done" then
      match env.key_verifications txid with
      | none => ([], some (Exc.keyError txid))
      | some _ =>
        ([Action.logLine "sas flags", Action.logLine "Emoji verification was successful!"], none)
    else
      ([Action.logLine "Received unexpected event type. Event will be ignored."], none)
  | .start _ txid sasFormats =>
    if !(sasFormats.contains "emoji") then
      ([Action.logLine "Other device does not support emoji verification."], none)
    else
      let a1 := [Action.acceptKeyVerification txid] ++ errLog "accept_key_verification" env.accept_resp
      match env.key_verifications txid with
      | none => (a1, some (Exc.keyError txid))
      | some sas =>
        (a1 ++ [Action.sendToDevice sas.share_key_msg]
            ++ errLog "to_device" (env.to_device_resp sas.share_key_msg), none)
  | .cancel sender _ reason =>
    ([Action.logLine ("Verification has been cancelled by " ++ sender ++ " for reason " ++ reason)], none)
  | .key sender txid =>
    match env.key_verifications txid with
    | none => ([], some (Exc.keyError txid))
    | some sas =>
      let a1 := [Action.logLine sas.emoji_text]
      match env.human_input with
      | .error e => (a1, some e)
      | .ok yn =>
        if pyLower yn = "y" then
          let a2 := a1 ++ [Action.logLine "Match! The verification for this device will be accepted.",
                           Action.confirmShortAuthString txid]
                       ++ errLog "confirm_short_auth_string" env.confirm_resp
          let doneMsg : ToDeviceMessage :=
            { type := "m.key.verification.done"
              recipient := sender
              recipient_device := sas.other_device_id
              tx_id := sas.transaction_id
              from_device := none
              methods := none }
          (a2 ++ [Action.sendToDevice doneMsg]
              ++ errLog "done" (env.to_device_resp doneMsg), none)
        else if pyLower yn = "n" then
          (a1 ++ [Action.logLine "No match! Device will NOT be verified by rejecting verification.",
                  Action.cancelKeyVerification txid true]
              ++ errLog "cancel_key_verification" env.cancel_resp, none)
        else
          (a1 ++ [Action.logLine "Cancelled by user! Verification will be cancelled.",
                  Action.cancelKeyVerification txid false]
              ++ errLog "cancel_key_verification" env.cancel_resp, none)
  | .mac sender txid =>
    match env.key_verifications txid with
    | none => ([], some (Exc.keyError txid))
    | some sas =>
      match sas.mac_result with
      | .error e =>
        ([Action.logLine ("Cancelled or protocol error: Reason: " ++ e
            ++ ". Verification with " ++ sender ++ " not concluded. Try again?")], none)
      | .ok msg =>
        ([Action.sendToDevice msg] ++ errLog "to_device" (env.to_device_resp msg), none)

/-- The full handler `Callbacks.to_device_callback`: its body wrapped in
`try ... except BaseException: print(traceback.format_exc())`.  The second
component is the exception escaping the handler (always none, since the
catch-all catches every BaseException). -/
def to_device_callback (env : Env) (ev : Event) : List Action × Option Exc :=
  match callbackBody env ev with
  | (acts, none) => (acts, none)
  | (acts, some _) => (acts ++ [Action.logLine "traceback"], none)

/-- Exit behaviour of the module entry point (`asyncio.run(main())` wrapped in
`except Exception: ... sys.exit(1)` and `except KeyboardInterrupt:
sys.exit(0)`) as a function of the exception escaping to it: none means the
program keeps running. -/
def processExitOnEscape : Option Exc → Option Nat
  | none => none
  | some Exc.keyboardInterrupt => some 0
  | some _ => some 1

/-- Test whether an action is an outbound to-device send. -/
def Action.isSend : Action → Bool
  | .sendToDevice _ => true
  | _ => false

/-- Test whether an action is an accept_key_verification call. -/
def Action.isAccept : Action → Bool
  | .acceptKeyVerification _ => true
  | _ => false

/-- Test whether an action is a confirm_short_auth_string call. -/
def Action.isConfirm : Action → Bool
  | .confirmShortAuthString _ => true
  | _ => false

/-- Test whether an action is a cancel_key_verification call. -/
def Action.isCancel : Action → Bool
  | .cancelKeyVerification _ _ => true
  | _ => false

/-- Test whether an action is a printed log line. -/
def Action.isLog : Action → Bool
  | .logLine _ => true
  | _ => false

/-- The outbound to-device sends of a trace, in order. -/
def sends (acts : List Action) : List Action :=
  acts.filter Action.isSend

/-- The non-log actions of a trace (sends and verification API calls), in
order. -/
def nonLogs (acts : List Action) : List Action :=
  acts.filter (fun a => !a.isLog)

/-- The fields of a successful matrix-nio LoginResponse that the script
reads. -/
structure LoginResponse where
  user_id : String
  device_id : String
  access_token : String
  deriving DecidableEq

/-- The credential record stored in the login.json file: exactly the five
keys the script writes and reads. -/
structure Credentials where
  homeserver : String
  user_id : String
  device_id : String
  access_token : String
  device_name : String
  deriving DecidableEq

/-- The function `write_details_to_disk`: the record it serialises to the
config file, built from the login response, the homeserver and the chosen
device name. -/
def write_details_to_disk (resp : LoginResponse) (homeserver device_name : String) :
    Credentials :=
  { homeserver := homeserver
    user_id := resp.user_id
    device_id := resp.device_id
    access_token := resp.access_token
    device_name := device_name }

/-- The slice of an AsyncClient handle that the login flow determines: the
homeserver and account id it was constructed with, and the device id, access
token and logged-in flag set by either a password login or restore_login. -/
structure ClientState where
  homeserver : String
  user_id : String
  device_id : Option String
  access_token : Option String
  logged_in : Bool
  deriving DecidableEq

/-- An observable side effect of the `login` function, in program order:
interactive prompts, the store-directory creation, the network password
login, the credential-file write and read, the offline restore, and a
process exit. -/
inductive LoginEffect where
  | promptHomeserver
  | promptUserId
  | promptPassword
  | mkdirStore
  | passwordLogin (homeserver user_id device_name : String)
  | writeCredentials (c : Credentials)
  | readCredentials
  | restoreLogin (user_id device_id access_token : String)
  | exitProcess (code : Nat)
  deriving DecidableEq

/-- Test whether a login effect is the network password login. -/
def LoginEffect.isPasswordLogin : LoginEffect → Bool
  | .passwordLogin _ _ _ => true
  | _ => false

/-- Test whether a login effect writes the credential file. -/
def LoginEffect.isWrite : LoginEffect → Bool
  | .writeCredentials _ => true
  | _ => false

/-- The on-disk state the `login` function touches: the contents of the
config file when it exists, and whether the store directory exists. -/
structure FS where
  config : Option Credentials
  store_exists : Bool
  deriving DecidableEq

/-- Character-wise test that the first list begins with the second. -/
def startsWithChars : List Char → List Char → Bool
  | _, [] => true
  | [], _ :: _ => false
  | a :: as, b :: bs => a == b && startsWithChars as bs

/-- The Python `str.startswith` call, embedded over the character lists of
the two strings. -/
def pyStartsWith (s p : String) : Bool := startsWithChars s.data p.data

/-- The homeserver normalisation inside `login`: the entered URL is used
unchanged when it already starts with "https://" or "http://", and
"https://" is prepended otherwise. -/
def normalizeHomeserver (s : String) : String :=
  if pyStartsWith s "https://" || pyStartsWith s "http://" then s else "https://" ++ s

/-- The interactive answers given at the first-login prompts. -/
structure LoginPrompts where
  homeserver_input : String
  user_id_input : String
  deriving DecidableEq

/-- The result of one run of `login`: the client handle returned (none when
the process exited on a failed login), the on-disk state afterwards, and the
effects performed in order. -/
structure LoginResult where
  client : Option ClientState
  fs : FS
  effects : List LoginEffect

/-- The function `login`: when no config file exists, prompt for homeserver
(normalised), user id and password, create the store directory if missing,
perform the password login and on success write the credentials (on failure
print and exit with status 1); when the config file exists, read it and
reconstruct the client with restore_login, with no network login.
`serverResp` is the response of `client.login` as a function of the
homeserver and user id. -/
def login (fs : FS) (prompts : LoginPrompts) (dn : String)
    (serverResp : String → String → Except String LoginResponse) : LoginResult :=
  match fs.config with
  | none =>
    let hs := normalizeHomeserver prompts.homeserver_input
    let uid := prompts.user_id_input
    let mkdirEffs := if fs.store_exists then ([] : List LoginEffect) else [LoginEffect.mkdirStore]
    let effs0 := [LoginEffect.promptHomeserver, LoginEffect.promptUserId] ++ mkdirEffs
                   ++ [LoginEffect.promptPassword, LoginEffect.passwordLogin hs uid dn]
    match serverResp hs uid with
    | .ok resp =>
      let creds := write_details_to_disk resp hs dn
      { client := some { homeserver := hs, user_id := uid, device_id := some resp.device_id,
                         access_token := some resp.access_token, logged_in := true }
        fs := { config := some creds, store_exists := true }
        effects := effs0 ++ [LoginEffect.writeCredentials creds] }
    | .error _ =>
      { client := none
        fs := { config := none, store_exists := true }
        effects := effs0 ++ [LoginEffect.exitProcess 1] }
  | some cfg =>
    { client := some { homeserver := cfg.homeserver, user_id := cfg.user_id,
                       device_id := some cfg.device_id, access_token := some cfg.access_token,
                       logged_in := true }
      fs := fs
      effects := [LoginEffect.readCredentials,
                  LoginEffect.restoreLogin cfg.user_id cfg.device_id cfg.access_token] }

/-- A concrete to-device message used when instantiating theorems. -/
def sampleMsg : ToDeviceMessage :=
  { type := "m.key.verification.key"
    recipient := "@user2:example.org"
    recipient_device := "DEVICEIDXY"
    tx_id := "SomeTxId"
    from_device := none
    methods := none }

/-- A concrete Sas verification object used when instantiating theorems. -/
def sampleSas : Sas :=
  { transaction_id := "SomeTxId"
    other_device_id := "DEVICEIDXY"
    share_key_msg := sampleMsg
    mac_result := Except.ok sampleMsg
    emoji_text := "dog cat lion horse unicorn pig rabbit" }

/-- A concrete environment: a logged-in client with one live verification
transaction "SomeTxId", a human who answers "y", and a transport whose calls
all succeed. -/
def sampleEnv : Env :=
  { device_id := some "BOTDEVICEID"
    user_id := some "@bot:example.org"
    key_verifications := fun t => if t = "SomeTxId" then some sampleSas else none
    human_input := Except.ok "y"
    to_device_resp := fun _ => none
    accept_resp := none
    confirm_resp := none
    cancel_resp := none }

/-- C1: for an incoming verification-request to-device event, when the string
"m.sas.v1" is absent from the proposed methods list the handler emits no
reply, and when it is present (the logged-in client having a device id and a
user id) the handler emits exactly one ready to-device reply carrying this
device id, the single method list ["m.sas.v1"], and the transaction id of the
triggering event. -/
theorem request_event_reply (env : Env) (sender fromDevice txid : String)
    (methods : List String) :
    (methods.contains "m.sas.v1" = false →
      sends (to_device_callback env
        (Event.unknown "m.key.verification.request" sender fromDevice txid methods)).1 = []) ∧
    (∀ d u, methods.contains "m.sas.v1" = true →
      env.device_id = some d → env.user_id = some u →
      sends (to_device_callback env
        (Event.unknown "m.key.verification.request" sender fromDevice txid methods)).1 =
        [Action.sendToDevice
          { type := "m.key.verification.ready"
            recipient := sender
            recipient_device := fromDevice
            tx_id := txid
            from_device := some d
            methods := some ["m.sas.v1"] }]) := by
  constructor
  · intro h
    have h' : "m.sas.v1" ∉ methods := by simpa using h
    simp [to_device_callback, callbackBody, sends, h', Action.isSend]
  · intro d u hm hd hu
    have hm' : "m.sas.v1" ∈ methods := by simpa using hm
    simp only [to_device_callback, callbackBody, hm', if_true, hd, hu]
    cases h2 : env.to_device_resp
        { type := "m.key.verification.ready"
          recipient := sender
          recipient_device := fromDevice
          tx_id := txid
          from_device := some d
          methods := some ["m.sas.v1"] } <;>
      simp [errLog, sends, Action.isSend, h2, hm']

/-- Witness for C1 at a concrete request event against the sample
environment. -/
theorem request_event_reply_witness :
    sends (to_device_callback sampleEnv
      (Event.unknown "m.key.verification.request" "@user2:example.org" "DEVICEIDXY"
        "SomeTxId" ["m.sas.v1"])).1 =
      [Action.sendToDevice
        { type := "m.key.verification.ready"
          recipient := "@user2:example.org"
          recipient_device := "DEVICEIDXY"
          tx_id := "SomeTxId"
          from_device := some "BOTDEVICEID"
          methods := some ["m.sas.v1"] }] :=
  (request_event_reply sampleEnv "@user2:example.org" "DEVICEIDXY" "SomeTxId"
    ["m.sas.v1"]).2 "BOTDEVICEID" "@bot:example.org" (by decide) rfl rfl

/-- C2: for an incoming verification-start event, when "emoji" is absent from
the offered short-authentication-string list the handler performs no reply
and no key-share request (no non-log action at all), and when it is present
(the transaction being live in the key_verifications table) the non-log
actions are exactly the accept_key_verification call followed by the single
key-share send, in that order. -/
theorem start_event_reply (env : Env) (sender txid : String)
    (sasFormats : List String) :
    (sasFormats.contains "emoji" = false →
      nonLogs (to_device_callback env (Event.start sender txid sasFormats)).1 = []) ∧
    (∀ sas, sasFormats.contains "emoji" = true →
      env.key_verifications txid = some sas →
      nonLogs (to_device_callback env (Event.start sender txid sasFormats)).1 =
        [Action.acceptKeyVerification txid, Action.sendToDevice sas.share_key_msg]) := by
  constructor
  · intro h
    have h' : "emoji" ∉ sasFormats := by simpa using h
    simp [to_device_callback, callbackBody, nonLogs, h', Action.isLog]
  · intro sas hm hs
    have hm' : "emoji" ∈ sasFormats := by simpa using hm
    simp only [to_device_callback, callbackBody, hm', if_true, hs]
    cases ha : env.accept_resp <;>
      cases h2 : env.to_device_resp sas.share_key_msg <;>
        simp [errLog, nonLogs, Action.isLog, ha, h2, hm', hs]

/-- Witness for C2 at a concrete start event against the sample
environment. -/
theorem start_event_reply_witness :
    nonLogs (to_device_callback sampleEnv
      (Event.start "@user2:example.org" "SomeTxId" ["decimal", "emoji"])).1 =
      [Action.acceptKeyVerification "SomeTxId",
       Action.sendToDevice sampleSas.share_key_msg] :=
  (start_event_reply sampleEnv "@user2:example.org" "SomeTxId"
    ["decimal", "emoji"]).2 sampleSas (by decide) rfl

/-- C3: for an incoming verification-key event on a live transaction, the
non-log actions after the human answer are: on "y" exactly one
confirm_short_auth_string call followed by exactly one done to-device message
carrying the same transaction id; on "n" exactly one cancel_key_verification
call with the reject flag true and no done message; on any other answer
exactly one cancel_key_verification call with the reject flag false. -/
theorem key_event_decision (env : Env) (sender txid : String) (sas : Sas)
    (hs : env.key_verifications txid = some sas)
    (hw : sas.transaction_id = txid) :
    ∀ yn, env.human_input = Except.ok yn →
      ((pyLower yn = "y" →
        nonLogs (to_device_callback env (Event.key sender txid)).1 =
          [Action.confirmShortAuthString txid,
           Action.sendToDevice
             { type := "m.key.verification.done"
               recipient := sender
               recipient_device := sas.other_device_id
               tx_id := txid
               from_device := none
               methods := none }]) ∧
       (pyLower yn = "n" →
        nonLogs (to_device_callback env (Event.key sender txid)).1 =
          [Action.cancelKeyVerification txid true]) ∧
       (pyLower yn ≠ "y" → pyLower yn ≠ "n" →
        nonLogs (to_device_callback env (Event.key sender txid)).1 =
          [Action.cancelKeyVerification txid false])) := by
  intro yn hi
  refine ⟨?_, ?_, ?_⟩
  · intro hy
    simp only [to_device_callback, callbackBody, hs, hi, hy, if_true, hw]
    cases hc : env.confirm_resp <;>
      cases h2 : env.to_device_resp
          { type := "m.key.verification.done"
            recipient := sender
            recipient_device := sas.other_device_id
            tx_id := txid
            from_device := none
            methods := none } <;>
        simp [errLog, nonLogs, Action.isLog, hc, h2]
  · intro hn
    have hy : ¬ (pyLower yn = "y") := by simp [hn]
    simp only [to_device_callback, callbackBody, hs, hi, hn, hy, if_false, if_true]
    cases hc : env.cancel_resp <;>
      simp [errLog, nonLogs, Action.isLog, hc, hy, hn]
  · intro hy hn
    simp only [to_device_callback, callbackBody, hs, hi, hy, hn, if_false]
    cases hc : env.cancel_resp <;>
      simp [errLog, nonLogs, Action.isLog, hc, hy, hn]

/-- Witness for C3 at a concrete key event with answer "y" against the
sample environment. -/
theorem key_event_decision_witness :
    nonLogs (to_device_callback sampleEnv (Event.key "@user2:example.org" "SomeTxId")).1 =
      [Action.confirmShortAuthString "SomeTxId",
       Action.sendToDevice
         { type := "m.key.verification.done"
           recipient := "@user2:example.org"
           recipient_device := "DEVICEIDXY"
           tx_id := "SomeTxId"
           from_device := none
           methods := none }] :=
  ((key_event_decision sampleEnv "@user2:example.org" "SomeTxId" sampleSas rfl rfl
    "y" rfl).1) (by decide)

/-- C4: for an incoming verification-cancel event, in every environment (so
in every transaction state, including an already-cancelled or unknown
transaction) the handler performs only log output: no outbound message, no
verification API call, and no exception escapes the handler. -/
theorem cancel_event_silent (env : Env) (sender txid reason : String) :
    (to_device_callback env (Event.cancel sender txid reason)).1.all Action.isLog = true ∧
    (to_device_callback env (Event.cancel sender txid reason)).2 = none := by
  constructor <;> simp [to_device_callback, callbackBody, Action.isLog]

/-- C5: for an incoming verification-mac event on a live transaction, when
`sas.get_mac()` raises a LocalProtocolError the handler prints exactly the
error line and emits no reply, and otherwise the handler emits exactly one
to-device send carrying the mac payload returned by the cryptographic
layer. -/
theorem mac_event_reply (env : Env) (sender txid : String) (sas : Sas)
    (hs : env.key_verifications txid = some sas) :
    (∀ e, sas.mac_result = Except.error e →
      sends (to_device_callback env (Event.mac sender txid)).1 = [] ∧
      (to_device_callback env (Event.mac sender txid)).1 =
        [Action.logLine ("Cancelled or protocol error: Reason: " ++ e
          ++ ". Verification with " ++ sender ++ " not concluded. Try again?")]) ∧
    (∀ msg, sas.mac_result = Except.ok msg →
      sends (to_device_callback env (Event.mac sender txid)).1 =
        [Action.sendToDevice msg]) := by
  constructor
  · intro e he
    simp [to_device_callback, callbackBody, hs, he, sends, Action.isSend]
  · intro msg hm
    simp only [to_device_callback, callbackBody, hs, hm]
    cases h2 : env.to_device_resp msg <;>
      simp [errLog, sends, Action.isSend, h2]

/-- Witness for C5 at a concrete mac event against the sample environment,
whose get_mac call succeeds. -/
theorem mac_event_reply_witness :
    sends (to_device_callback sampleEnv (Event.mac "@user2:example.org" "SomeTxId")).1 =
      [Action.sendToDevice sampleMsg] :=
  (mac_event_reply sampleEnv "@user2:example.org" "SomeTxId" sampleSas rfl).2
    sampleMsg rfl

/-- An environment with no logged-in identity and an empty transaction table,
used to instantiate theorems at an event whose handling raises. -/
def emptyEnv : Env :=
  { device_id := none
    user_id := none
    key_verifications := fun _ => none
    human_input := Except.ok ""
    to_device_resp := fun _ => none
    accept_resp := none
    confirm_resp := none
    cancel_resp := none }

/-- C6: no exception escapes `to_device_callback` (its catch-all boundary
catches everything its body raises), and whenever the body does raise, the
handler logs the stack trace after the actions already performed and returns
normally. -/
theorem callback_catches_all (env : Env) (ev : Event) :
    (to_device_callback env ev).2 = none ∧
    (∀ acts e, callbackBody env ev = (acts, some e) →
      (to_device_callback env ev).1 = acts ++ [Action.logLine "traceback"]) := by
  constructor
  · rcases h : callbackBody env ev with ⟨acts, exc⟩
    cases exc <;> simp [to_device_callback, h]
  · intro acts e h
    simp [to_device_callback, h]

/-- Witness for C6 at a key event for an unknown transaction id, whose body
raises a KeyError: the handler returns normally with only the traceback
log. -/
theorem callback_catches_all_witness :
    (to_device_callback emptyEnv (Event.key "@user2:example.org" "SomeTxId")).2 = none ∧
    (to_device_callback emptyEnv (Event.key "@user2:example.org" "SomeTxId")).1 =
      [Action.logLine "traceback"] := by
  refine ⟨(callback_catches_all emptyEnv (Event.key "@user2:example.org" "SomeTxId")).1, ?_⟩
  have h := (callback_catches_all emptyEnv (Event.key "@user2:example.org" "SomeTxId")).2
      [] (Exc.keyError "SomeTxId") (by decide)
  simpa using h

/-- C10: a KeyboardInterrupt raised while the handler is blocked at the
emoji-match input prompt of a verification-key event is caught by the
catch-all (which catches BaseException), logged, and the handler returns
normally with no escaping exception, so the process does not exit (in
particular it does not exit with the clean-interrupt code 0). -/
theorem keyboard_interrupt_contained (env : Env) (sender txid : String) (sas : Sas)
    (hs : env.key_verifications txid = some sas)
    (hi : env.human_input = Except.error Exc.keyboardInterrupt) :
    (to_device_callback env (Event.key sender txid)).2 = none ∧
    (to_device_callback env (Event.key sender txid)).1 =
      [Action.logLine sas.emoji_text, Action.logLine "traceback"] ∧
    processExitOnEscape (to_device_callback env (Event.key sender txid)).2 = none := by
  have hb : callbackBody env (Event.key sender txid) =
      ([Action.logLine sas.emoji_text], some Exc.keyboardInterrupt) := by
    simp [callbackBody, hs, hi]
  refine ⟨?_, ?_, ?_⟩ <;> simp [to_device_callback, hb, processExitOnEscape]

/-- An environment whose human operator hits Control-C at the input prompt,
modelled as the input call raising KeyboardInterrupt. -/
def interruptEnv : Env :=
  { sampleEnv with human_input := Except.error Exc.keyboardInterrupt }

/-- Witness for C10 at a concrete key event against the interrupted sample
environment. -/
theorem keyboard_interrupt_contained_witness :
    (to_device_callback interruptEnv (Event.key "@user2:example.org" "SomeTxId")).2 = none ∧
    (to_device_callback interruptEnv (Event.key "@user2:example.org" "SomeTxId")).1 =
      [Action.logLine sampleSas.emoji_text, Action.logLine "traceback"] ∧
    processExitOnEscape
      (to_device_callback interruptEnv (Event.key "@user2:example.org" "SomeTxId")).2 = none :=
  keyboard_interrupt_contained interruptEnv "@user2:example.org" "SomeTxId" sampleSas
    rfl rfl

/-- C7: restoring a session from a credential record written by
`write_details_to_disk` after a successful password login reconstructs a
client handle whose homeserver, account id, device id and access token equal
the originally written values exactly, and the restore path performs no
password login. -/
theorem credential_round_trip (resp : LoginResponse) (hs dn : String) (b : Bool)
    (prompts : LoginPrompts) (dn2 : String)
    (serverResp : String → String → Except String LoginResponse) :
    (login { config := some (write_details_to_disk resp hs dn), store_exists := b }
        prompts dn2 serverResp).client =
      some { homeserver := hs
             user_id := resp.user_id
             device_id := some resp.device_id
             access_token := some resp.access_token
             logged_in := true } ∧
    ((login { config := some (write_details_to_disk resp hs dn), store_exists := b }
        prompts dn2 serverResp).effects.all (fun e => !e.isPasswordLogin)) = true := by
  constructor <;>
    simp [login, write_details_to_disk, LoginEffect.isPasswordLogin]

/-- C8: on a run where the credential file already exists, `login` performs
no write to it and leaves the disk state unchanged; on a run where it does
not exist and the password login succeeds, the password login and the
credential-file writes of the run are exactly one login immediately followed
by exactly one write of the record built from the login response, and that
record is the config file contents afterwards. -/
theorem credentials_write_once (fs : FS) (prompts : LoginPrompts) (dn : String)
    (serverResp : String → String → Except String LoginResponse) :
    (∀ c, fs.config = some c →
      (login fs prompts dn serverResp).effects.filter LoginEffect.isWrite = [] ∧
      (login fs prompts dn serverResp).fs = fs) ∧
    (∀ resp, fs.config = none →
      serverResp (normalizeHomeserver prompts.homeserver_input) prompts.user_id_input =
        Except.ok resp →
      (login fs prompts dn serverResp).effects.filter
          (fun e => e.isPasswordLogin || e.isWrite) =
        [LoginEffect.passwordLogin (normalizeHomeserver prompts.homeserver_input)
           prompts.user_id_input dn,
         LoginEffect.writeCredentials
           (write_details_to_disk resp (normalizeHomeserver prompts.homeserver_input) dn)] ∧
      (login fs prompts dn serverResp).fs.config =
        some (write_details_to_disk resp (normalizeHomeserver prompts.homeserver_input) dn)) := by
  constructor
  · intro c hc
    constructor <;> simp [login, hc, LoginEffect.isWrite]
  · intro resp hn hr
    cases hst : fs.store_exists <;>
      constructor <;>
        simp [login, hn, hr, hst, LoginEffect.isWrite, LoginEffect.isPasswordLogin]

/-- A concrete successful login response used when instantiating
theorems. -/
def wLoginResp : LoginResponse :=
  { user_id := "@bot:example.org", device_id := "BOTDEVICEID", access_token := "tok" }

/-- The credential record persisted by the concrete first run. -/
def wCreds : Credentials :=
  { homeserver := "https://matrix.example.org"
    user_id := "@bot:example.org"
    device_id := "BOTDEVICEID"
    access_token := "tok"
    device_name := "bot1234" }

/-- Concrete first-login prompt answers with an explicit scheme. -/
def wPromptsFirst : LoginPrompts :=
  { homeserver_input := "https://matrix.example.org", user_id_input := "@bot:example.org" }

/-- Concrete first-login prompt answers whose homeserver lacks a scheme. -/
def wPromptsBare : LoginPrompts :=
  { homeserver_input := "matrix.example.org", user_id_input := "@bot:example.org" }

/-- A server that accepts the password login. -/
def wServerOk : String → String → Except String LoginResponse :=
  fun _ _ => Except.ok wLoginResp

/-- A server that rejects the password login. -/
def wServerFail : String → String → Except String LoginResponse :=
  fun _ _ => Except.error "M_FORBIDDEN"

/-- Witness for C8: a first run on an empty disk with a succeeding server
performs exactly the password login followed by the credential write, and a
second run on the resulting disk performs no write. -/
theorem credentials_write_once_witness :
    List.filter (fun e => e.isPasswordLogin || e.isWrite)
      (login { config := none, store_exists := false } wPromptsFirst "bot1234"
        wServerOk).effects =
      [LoginEffect.passwordLogin "https://matrix.example.org" "@bot:example.org" "bot1234",
       LoginEffect.writeCredentials wCreds] ∧
    List.filter LoginEffect.isWrite
      (login { config := some wCreds, store_exists := true } wPromptsFirst "bot1234"
        wServerFail).effects = [] := by
  constructor
  · have h := (credentials_write_once { config := none, store_exists := false }
      wPromptsFirst "bot1234" wServerOk).2 wLoginResp rfl rfl
    rw [h.1]
    decide
  · exact ((credentials_write_once { config := some wCreds, store_exists := true }
      wPromptsFirst "bot1234" wServerFail).1 wCreds rfl).1

/-- C9: the homeserver string entered at the first-login prompt is used
unchanged when it starts with "https://" or "http://", and has "https://"
prepended otherwise; the homeserver passed to the password login on a
first-run is exactly this normalised value. -/
theorem homeserver_scheme_normalized (s : String) (fs : FS) (prompts : LoginPrompts)
    (dn : String) (serverResp : String → String → Except String LoginResponse) :
    ((pyStartsWith s "https://" = true ∨ pyStartsWith s "http://" = true) →
      normalizeHomeserver s = s) ∧
    (pyStartsWith s "https://" = false → pyStartsWith s "http://" = false →
      normalizeHomeserver s = "https://" ++ s) ∧
    (fs.config = none →
      (login fs prompts dn serverResp).effects.filter LoginEffect.isPasswordLogin =
        [LoginEffect.passwordLogin (normalizeHomeserver prompts.homeserver_input)
           prompts.user_id_input dn]) := by
  refine ⟨?_, ?_, ?_⟩
  · intro h
    rcases h with h | h <;> simp [normalizeHomeserver, h]
  · intro h1 h2
    simp [normalizeHomeserver, h1, h2]
  · intro hn
    cases hst : fs.store_exists <;>
      cases hr : serverResp (normalizeHomeserver prompts.homeserver_input)
          prompts.user_id_input <;>
        simp [login, hn, hst, hr, LoginEffect.isPasswordLogin]

/-- Witness for C9 at a scheme-less homeserver input: the secure scheme is
prepended, and a first run logs in with the normalised URL. -/
theorem homeserver_scheme_normalized_witness :
    normalizeHomeserver "matrix.example.org" = "https://" ++ "matrix.example.org" ∧
    List.filter LoginEffect.isPasswordLogin
      (login { config := none, store_exists := true } wPromptsBare "bot1234"
        wServerFail).effects =
      [LoginEffect.passwordLogin (normalizeHomeserver "matrix.example.org")
         "@bot:example.org" "bot1234"] := by
  constructor
  · exact (homeserver_scheme_normalized "matrix.example.org"
      { config := none, store_exists := true } wPromptsBare "bot1234"
      wServerFail).2.1 (by decide) (by decide)
  · have h := (homeserver_scheme_normalized "matrix.example.org"
      { config := none, store_exists := true } wPromptsBare "bot1234"
      wServerFail).2.2 rfl
    rw [h]
    decide

end CreateBotDir
